import Mathlib

/-!
Verification of the calibrated well-plate analysis pipeline.

This file is a shallow embedding of the core analysis code
(`rgbToLab`/`labToRgb` callers, `getPixelData`, `getRobustAverageColor`
and `processWellPlate`).  Modelling choices:

* JavaScript numbers are modelled as exact rationals (`ℚ`).
* The transcendental sRGB ↔ CIELAB conversion (`Math.pow` with
  exponents 2.4 and 1/3) is kept abstract: every definition that calls
  it takes a conversion pair `toLab : RGB → Lab`, `toRgb : Lab → RGB`
  as parameters.  All properties proved here hold for every conversion
  pair, hence in particular for the concrete one in the source.
* The canvas `ctx.getImageData` call follows the HTML specification for
  an untainted canvas: it is total, and pixels requested outside the
  canvas bitmap are transparent black `(0, 0, 0)`.  The `try/catch`
  around it in the source (which turns a thrown `SecurityError` into an
  empty pixel list) is modelled by a `tainted` flag on the context.
* `Array.prototype.sort` with the comparator `(a, b) => a - b` sorts
  ascending; on a list of rationals any correct ascending sort produces
  the same list, so it is modelled by insertion sort.
-/

namespace WellPlate

/-- Model of a 2D point `{x, y}` in image pixel space (`types.ts`). -/
structure Point where
  x : ℚ
  y : ℚ
  deriving DecidableEq

/-- Model of an 8-bit tristimulus color `{r, g, b}` (`types.ts`). -/
structure RGB where
  r : ℚ
  g : ℚ
  b : ℚ
  deriving DecidableEq

/-- Model of a CIE L*a*b* color (the `Lab` interface of the source). -/
structure Lab where
  l : ℚ
  a : ℚ
  b : ℚ
  deriving DecidableEq

/-- Model of one entry of the pipeline output (`WellResult` in `types.ts`). -/
structure WellResult where
  id : String
  row : ℕ
  col : ℕ
  center : Point
  avgColor : RGB
  intensity : ℚ
  cellCount : ℚ
  deriving DecidableEq

/-- Model of the decoded raster behind the 2D canvas context.  `pix` gives
the color of the pixel at integer coordinates; `tainted` models the case
in which `ctx.getImageData` throws (caught by the source and turned into
an empty sample). -/
structure Ctx where
  width : ℤ
  height : ℤ
  pix : ℤ → ℤ → RGB
  tainted : Bool

/-- Model of JavaScript `Math.round`: round half toward positive infinity. -/
def jsRound (q : ℚ) : ℤ := Rat.floor (q + 1/2)

/-- Color returned by `getImageData` for the requested coordinate `(X, Y)`:
the canvas pixel when in bounds, transparent black otherwise. -/
def blockPixel (ctx : Ctx) (X Y : ℤ) : RGB :=
  if 0 ≤ X ∧ X < ctx.width ∧ 0 ≤ Y ∧ Y < ctx.height then ctx.pix X Y else ⟨0, 0, 0⟩

/-- Body of `getPixelData` after the radius clamp (source lines 85–94),
with the integer radius `r`: read the `2r × 2r` block returned by
`ctx.getImageData(Math.round(x - r), Math.round(y - r), 2r, 2r)` and keep
the pixels of the disc of radius `r` around the block center.  The source
test `Math.sqrt((px - r)^2 + (py - r)^2) <= r` is written as the
equivalent squared comparison (both sides are nonnegative since `r ≥ 1`). -/
def samplePixels (ctx : Ctx) (x y : ℚ) (r : ℤ) : List RGB :=
  let sx := jsRound (x - (r : ℚ))
  let sy := jsRound (y - (r : ℚ))
  let w : ℤ := 2 * r
  (List.range (w * w).toNat).filterMap fun k =>
    let px : ℤ := (k : ℤ) % w
    let py : ℤ := (k : ℤ) / w
    if (px - r) ^ 2 + (py - r) ^ 2 ≤ r ^ 2 then
      some (blockPixel ctx (sx + px) (sy + py))
    else
      none

/-- Model of `getPixelData` (source lines 81–99): clamp the requested
radius by `radius = Math.max(1, Math.round(radius))`, then sample the
disc; if `getImageData` throws (tainted canvas) the caught exception
leaves the pixel list empty. -/
def getPixelData (ctx : Ctx) (x y radius : ℚ) : List RGB :=
  if ctx.tainted then [] else samplePixels ctx x y (max 1 (jsRound radius))

/-- Ascending sort, the result of `values.sort((a, b) => a - b)`. -/
def sortAsc (l : List ℚ) : List ℚ := l.insertionSort (· ≤ ·)

/-- Model of `getRobustAverageColor` (source lines 105–131): empty input
gives black, a single pixel is returned unchanged, otherwise the
per-channel median in L*a*b* space is converted back to RGB. -/
def getRobustAverageColor (toLab : RGB → Lab) (toRgb : Lab → RGB)
    (pixels : List RGB) : RGB :=
  if pixels.length = 0 then ⟨0, 0, 0⟩
  else if pixels.length = 1 then pixels.getD 0 ⟨0, 0, 0⟩
  else
    let labPixels := pixels.map toLab
    let lValues := sortAsc (labPixels.map (·.l))
    let aValues := sortAsc (labPixels.map (·.a))
    let bValues := sortAsc (labPixels.map (·.b))
    let mid := lValues.length / 2
    let medianL := if lValues.length % 2 = 0 then
        (lValues.getD (mid - 1) 0 + lValues.getD mid 0) / 2
      else lValues.getD mid 0
    let medianA := if aValues.length % 2 = 0 then
        (aValues.getD (mid - 1) 0 + aValues.getD mid 0) / 2
      else aValues.getD mid 0
    let medianB := if bValues.length % 2 = 0 then
        (bValues.getD (mid - 1) 0 + bValues.getD mid 0) / 2
      else bValues.getD mid 0
    toRgb ⟨medianL, medianA, medianB⟩

/-- Plate constant `NUM_ROWS = 8`. -/
def NUM_ROWS : ℕ := 8

/-- Plate constant `NUM_COLS = 6`. -/
def NUM_COLS : ℕ := 6

/-- Sampling-radius shrink constant `WELL_RADIUS_FACTOR = 0.30`. -/
def WELL_RADIUS_FACTOR : ℚ := 3/10

/-- Column step `dx = (h6.x - a1.x) / (NUM_COLS - 1)` (source line 154). -/
def gridDx (a1 h6 : Point) : ℚ := (h6.x - a1.x) / ((NUM_COLS : ℚ) - 1)

/-- Row step `dy = (h6.y - a1.y) / (NUM_ROWS - 1)` (source line 155). -/
def gridDy (a1 h6 : Point) : ℚ := (h6.y - a1.y) / ((NUM_ROWS : ℚ) - 1)

/-- Sampling radius `min(|dx|, |dy|) * WELL_RADIUS_FACTOR` (source line 156). -/
def gridRadius (a1 h6 : Point) : ℚ :=
  min |gridDx a1 h6| |gridDy a1 h6| * WELL_RADIUS_FACTOR

/-- Well center `(a1.x + col * dx, a1.y + row * dy)` (source lines 183–184). -/
def wellCenter (a1 h6 : Point) (row col : ℕ) : Point :=
  ⟨a1.x + (col : ℚ) * gridDx a1 h6, a1.y + (row : ℚ) * gridDy a1 h6⟩

/-- Componentwise difference of L*a*b* colors, as in the source's
`wellVector` and `gradientVector` computations. -/
def labSub (u v : Lab) : Lab := ⟨u.l - v.l, u.a - v.a, u.b - v.b⟩

/-- Dot product in L*a*b* space (source line 201). -/
def dotLab (u v : Lab) : ℚ := u.l * v.l + u.a * v.a + u.b * v.b

/-- Squared magnitude of the gradient vector (source line 177). -/
def gradMagSq (g : Lab) : ℚ := g.l ^ 2 + g.a ^ 2 + g.b ^ 2

/-- Per-well scoring (source lines 189–209): if the well sampled at least
one pixel and the axis is non-degenerate, project onto the axis, clamp to
`[0, 1]` and apply the quadratic count curve; otherwise score zero. -/
def wellScore (pixels : List RGB) (labMin gradientVector labWell : Lab) : ℚ × ℚ :=
  if 0 < pixels.length ∧ 1/1000000 < gradMagSq gradientVector then
    let intensity :=
      max 0 (min 1 (dotLab (labSub labWell labMin) gradientVector /
        gradMagSq gradientVector))
    (intensity, intensity ^ 2 * 10000)
  else
    (0, 0)

/-- Reference-point sampling (source lines 159–160): sample the disc of
the grid radius around the given point. -/
def refPixels (ctx : Ctx) (a1 h6 p : Point) : List RGB :=
  getPixelData ctx p.x p.y (gridRadius a1 h6)

/-- Uniform-space color of a reference sample (source lines 166–170):
robust average of the sampled pixels converted to L*a*b*. -/
def refLab (toLab : RGB → Lab) (toRgb : Lab → RGB) (pixels : List RGB) : Lab :=
  toLab (getRobustAverageColor toLab toRgb pixels)

/-- One iteration of the well loop (source lines 182–219): sample the
well, compute its robust color, score it, and assemble the result record
with id `{RowLetter}{ColumnNumber}`. -/
def mkWellResult (toLab : RGB → Lab) (toRgb : Lab → RGB) (ctx : Ctx)
    (a1 h6 : Point) (labMin gradientVector : Lab) (row col : ℕ) : WellResult :=
  let center := wellCenter a1 h6 row col
  let pixels := getPixelData ctx center.x center.y (gridRadius a1 h6)
  let avgColor := getRobustAverageColor toLab toRgb pixels
  let sc := wellScore pixels labMin gradientVector (toLab avgColor)
  { id := (Char.ofNat (65 + row)).toString ++ toString (col + 1)
    row := row
    col := col
    center := center
    avgColor := avgColor
    intensity := sc.1
    cellCount := sc.2 }

/-- The full result list (source lines 166–221): build the axis from the
two reference samples, then iterate the 8 × 6 grid in row-major order. -/
def buildResults (toLab : RGB → Lab) (toRgb : Lab → RGB) (ctx : Ctx)
    (a1 h6 minColorPoint maxColorPoint : Point) : List WellResult :=
  let labMin := refLab toLab toRgb (refPixels ctx a1 h6 minColorPoint)
  let labMax := refLab toLab toRgb (refPixels ctx a1 h6 maxColorPoint)
  let gradientVector := labSub labMax labMin
  (List.range NUM_ROWS).flatMap fun row =>
    (List.range NUM_COLS).map fun col =>
      mkWellResult toLab toRgb ctx a1 h6 labMin gradientVector row col

/-- Model of `processWellPlate` (source lines 133–226) from the point
where the image is decoded: derive the grid, sample the two reference
points, reject if either sample is empty, otherwise score all 48 wells. -/
def processWellPlate (toLab : RGB → Lab) (toRgb : Lab → RGB) (ctx : Ctx)
    (a1 h6 minColorPoint maxColorPoint : Point) :
    Except String (List WellResult) :=
  if (refPixels ctx a1 h6 minColorPoint).length = 0 ∨
      (refPixels ctx a1 h6 maxColorPoint).length = 0 then
    Except.error
      ("Could not sample reference colors. Please ensure calibration points are inside wells.")
  else
    Except.ok (buildResults toLab toRgb ctx a1 h6 minColorPoint maxColorPoint)

/-- Formalisation of the spec's wording for the per-channel median
(§4.2): sort the channel, then take the middle value, or the average of
the two middle values when the count is even. -/
def specChannelMedian (values : List ℚ) : ℚ :=
  let s := sortAsc values
  if s.length % 2 = 0 then
    (s.getD (s.length / 2 - 1) 0 + s.getD (s.length / 2) 0) / 2
  else
    s.getD (s.length / 2) 0

/-- Formalisation of the spec's wording for the general case of the
robust estimator (§4.2): convert every pixel to uniform space, take the
three independent per-channel medians, recombine and convert back. -/
def specMedianEstimate (toLab : RGB → Lab) (toRgb : Lab → RGB)
    (pixels : List RGB) : RGB :=
  let labs := pixels.map toLab
  toRgb ⟨specChannelMedian (labs.map (·.l)),
         specChannelMedian (labs.map (·.a)),
         specChannelMedian (labs.map (·.b))⟩

/-- Concrete stand-in for the abstract color conversion, used only to
instantiate witnesses; all theorems hold for every conversion pair. -/
def mockToLab (c : RGB) : Lab := ⟨c.r, c.g, c.b⟩

/-- Concrete stand-in for the inverse conversion, used only to
instantiate witnesses. -/
def mockToRgb (_ : Lab) : RGB := ⟨0, 0, 0⟩

/-- Concrete 10 × 10 single-color image context used in witnesses. -/
def ctx0 : Ctx := ⟨10, 10, fun _ _ => ⟨120, 60, 30⟩, false⟩

end WellPlate

namespace WellPlate

/-- Sorting does not change the number of samples in a channel. -/
theorem sortAsc_length (l : List ℚ) : (sortAsc l).length = l.length := by
  simp [sortAsc, List.length_insertionSort]

/-- With the minimum effective radius 1, the sampler reads the 2 × 2
block and keeps the 3 pixels at distance at most 1 from its center. -/
theorem length_samplePixels_one (ctx : Ctx) (x y : ℚ) :
    (samplePixels ctx x y 1).length = 3 := rfl

/-- The well loop always assembles 8 × 6 = 48 result records. -/
theorem length_buildResults (toLab : RGB → Lab) (toRgb : Lab → RGB) (ctx : Ctx)
    (a1 h6 mp xp : Point) :
    (buildResults toLab toRgb ctx a1 h6 mp xp).length = 48 := rfl

/-- Requested radii below one half round down to at most zero. -/
theorem jsRound_nonpos {q : ℚ} (h : q < 1/2) : jsRound q ≤ 0 := by
  by_contra hc
  push_neg at hc
  have h1 : (1 : ℤ) ≤ Rat.floor (q + 1/2) := hc
  rw [Rat.le_floor] at h1
  push_cast at h1
  linarith

/-- The radius clamp maps every requested radius below one half to 1. -/
theorem max_one_jsRound_of_lt_half {q : ℚ} (h : q < 1/2) :
    max 1 (jsRound q) = 1 :=
  max_eq_left (le_trans (jsRound_nonpos h) (by norm_num))

/-- On an untainted canvas, a sampling call with requested radius below
one half returns the 3-pixel sample of the minimum disc. -/
theorem getPixelData_small_radius (ctx : Ctx) (x y radius : ℚ)
    (hr : radius < 1/2) (hct : ctx.tainted = false) :
    getPixelData ctx x y radius = samplePixels ctx x y 1 := by
  rw [getPixelData, hct, max_one_jsRound_of_lt_half hr]
  simp

end WellPlate

namespace WellPlate

/-- C8: the grid is derived deterministically from the two landmarks:
column step `(h6.x - a1.x) / 5`, row step `(h6.y - a1.y) / 7`
(`numCols = 6`, `numRows = 8`), well center `(row, col)` at
`a1 + col * columnStep + row * rowStep`, and shared sampling radius
`min(|columnStep|, |rowStep|)` times the fixed shrink constant
`WELL_RADIUS_FACTOR = 0.30`, which lies in the `0.25`–`0.35` range and
below `0.5`. -/
theorem grid_geometry_derivation (a1 h6 : Point) (row col : ℕ) :
    gridDx a1 h6 = (h6.x - a1.x) / 5 ∧
    gridDy a1 h6 = (h6.y - a1.y) / 7 ∧
    NUM_COLS = 6 ∧ NUM_ROWS = 8 ∧
    wellCenter a1 h6 row col =
      ⟨a1.x + (col : ℚ) * gridDx a1 h6, a1.y + (row : ℚ) * gridDy a1 h6⟩ ∧
    gridRadius a1 h6 = min |gridDx a1 h6| |gridDy a1 h6| * WELL_RADIUS_FACTOR ∧
    (1 : ℚ)/4 ≤ WELL_RADIUS_FACTOR ∧ WELL_RADIUS_FACTOR ≤ 35/100 ∧
    WELL_RADIUS_FACTOR < 1/2 := by
  refine ⟨?_, ?_, rfl, rfl, rfl, rfl, ?_, ?_, ?_⟩
  · rw [gridDx, NUM_COLS]; norm_num
  · rw [gridDy, NUM_ROWS]; norm_num
  · rw [WELL_RADIUS_FACTOR]; norm_num
  · rw [WELL_RADIUS_FACTOR]; norm_num
  · rw [WELL_RADIUS_FACTOR]; norm_num

/-- C10: the sampler clamps the requested radius to
`max(1, round(radius))`; in particular every requested radius below
`0.5` (including the zero radius produced when `a1 == h6`) is raised to
`1`, so the sampler reads the 2 × 2 block around the center and returns
its 3 in-disc pixels instead of an empty sample. -/
theorem sampler_radius_floor (ctx : Ctx) (x y radius : ℚ)
    (hr : radius < 1/2) (hct : ctx.tainted = false) :
    (∀ rad : ℚ, getPixelData ctx x y rad =
        if ctx.tainted then [] else samplePixels ctx x y (max 1 (jsRound rad))) ∧
    max 1 (jsRound radius) = 1 ∧
    getPixelData ctx x y radius = samplePixels ctx x y 1 ∧
    (getPixelData ctx x y radius).length = 3 := by
  refine ⟨fun rad => rfl, max_one_jsRound_of_lt_half hr, ?_, ?_⟩
  · exact getPixelData_small_radius ctx x y radius hr hct
  · rw [getPixelData_small_radius ctx x y radius hr hct]
    exact length_samplePixels_one ctx x y

/-- C10 witness: at requested radius `0` on the concrete untainted
context the clamp gives `1` and the sample has 3 pixels. -/
theorem sampler_radius_floor_witness :
    (0 : ℚ) < 1/2 ∧ ctx0.tainted = false ∧
    (max 1 (jsRound 0) = 1 ∧
      getPixelData ctx0 5 5 0 = samplePixels ctx0 5 5 1 ∧
      (getPixelData ctx0 5 5 0).length = 3) :=
  ⟨by norm_num, rfl,
    ⟨(sampler_radius_floor ctx0 5 5 0 (by norm_num) rfl).2.1,
     (sampler_radius_floor ctx0 5 5 0 (by norm_num) rfl).2.2.1,
     (sampler_radius_floor ctx0 5 5 0 (by norm_num) rfl).2.2.2⟩⟩

/-- C4: the pipeline fails (with the calibration error) exactly when at
least one of the two reference points samples zero pixels, and every
invocation either fails with exactly one error and no result list, or
fully succeeds with all 48 results. -/
theorem pipeline_error_iff_empty_reference (toLab : RGB → Lab)
    (toRgb : Lab → RGB) (ctx : Ctx) (a1 h6 mp xp : Point) :
    ((∃ e, processWellPlate toLab toRgb ctx a1 h6 mp xp = Except.error e) ↔
      ((refPixels ctx a1 h6 mp).length = 0 ∨ (refPixels ctx a1 h6 xp).length = 0)) ∧
    ((∃ e, processWellPlate toLab toRgb ctx a1 h6 mp xp = Except.error e) ∨
      (∃ rs, processWellPlate toLab toRgb ctx a1 h6 mp xp = Except.ok rs ∧
        rs.length = 48)) := by
  by_cases hcond : (refPixels ctx a1 h6 mp).length = 0 ∨
      (refPixels ctx a1 h6 xp).length = 0
  · constructor
    · exact ⟨fun _ => hcond, fun _ => ⟨_, by rw [processWellPlate, if_pos hcond]⟩⟩
    · exact Or.inl ⟨_, by rw [processWellPlate, if_pos hcond]⟩
  · constructor
    · constructor
      · rintro ⟨e, he⟩
        rw [processWellPlate, if_neg hcond] at he
        exact Except.noConfusion he
      · intro hc
        exact absurd hc hcond
    · exact Or.inr ⟨_, by rw [processWellPlate, if_neg hcond],
        length_buildResults toLab toRgb ctx a1 h6 mp xp⟩

end WellPlate

namespace WellPlate

/-- C2: every successful invocation returns exactly 48 results in
row-major order (all 6 columns of row A, then row B, …, row H), the id
of each being the row letter followed by the 1-based column number, so
every id of the 8 × 6 grid occurs exactly once. -/
theorem pipeline_output_shape (toLab : RGB → Lab) (toRgb : Lab → RGB)
    (ctx : Ctx) (a1 h6 mp xp : Point) (rs : List WellResult)
    (h : processWellPlate toLab toRgb ctx a1 h6 mp xp = Except.ok rs) :
    rs.length = 48 ∧
    rs.map (fun r => r.id) =
      ["A1", "A2", "A3", "A4", "A5", "A6",
       "B1", "B2", "B3", "B4", "B5", "B6",
       "C1", "C2", "C3", "C4", "C5", "C6",
       "D1", "D2", "D3", "D4", "D5", "D6",
       "E1", "E2", "E3", "E4", "E5", "E6",
       "F1", "F2", "F3", "F4", "F5", "F6",
       "G1", "G2", "G3", "G4", "G5", "G6",
       "H1", "H2", "H3", "H4", "H5", "H6"] := by
  have hb : rs = buildResults toLab toRgb ctx a1 h6 mp xp := by
    rw [processWellPlate] at h
    split at h
    · exact Except.noConfusion h
    · exact (Except.ok.inj h).symm
  subst hb
  exact ⟨rfl, rfl⟩

/-- C2 witness: a successful concrete invocation, with the 48 row-major
ids. -/
theorem pipeline_output_shape_witness :
    processWellPlate mockToLab mockToRgb ctx0 ⟨1, 1⟩ ⟨21, 36⟩ ⟨5, 5⟩ ⟨5, 5⟩ =
      Except.ok ((processWellPlate mockToLab mockToRgb ctx0
        ⟨1, 1⟩ ⟨21, 36⟩ ⟨5, 5⟩ ⟨5, 5⟩).toOption.getD []) ∧
    ((processWellPlate mockToLab mockToRgb ctx0
        ⟨1, 1⟩ ⟨21, 36⟩ ⟨5, 5⟩ ⟨5, 5⟩).toOption.getD []).map (fun r => r.id) =
      ["A1", "A2", "A3", "A4", "A5", "A6",
       "B1", "B2", "B3", "B4", "B5", "B6",
       "C1", "C2", "C3", "C4", "C5", "C6",
       "D1", "D2", "D3", "D4", "D5", "D6",
       "E1", "E2", "E3", "E4", "E5", "E6",
       "F1", "F2", "F3", "F4", "F5", "F6",
       "G1", "G2", "G3", "G4", "G5", "G6",
       "H1", "H2", "H3", "H4", "H5", "H6"] :=
  ⟨by with_unfolding_all rfl,
   (pipeline_output_shape mockToLab mockToRgb ctx0 ⟨1, 1⟩ ⟨21, 36⟩ ⟨5, 5⟩ ⟨5, 5⟩ _
     (by with_unfolding_all rfl)).2⟩

end WellPlate

namespace WellPlate

/-- C1: for a well that sampled at least one pixel against an axis with
squared magnitude above epsilon, the scorer computes exactly
`intensity = clamp(dot(wellColor - origin, vector) / magnitudeSquared, 0, 1)`
and `cellCount = intensity² * 10000`; the intensity lies in `[0, 1]`,
and `intensity = 1/2` forces `cellCount = 2500`. -/
theorem scorer_projection_formula (pixels : List RGB)
    (labMin g labWell : Lab) (hp : 0 < pixels.length)
    (hg : 1/1000000 < gradMagSq g) :
    wellScore pixels labMin g labWell =
      (max 0 (min 1 (dotLab (labSub labWell labMin) g / gradMagSq g)),
       (max 0 (min 1 (dotLab (labSub labWell labMin) g / gradMagSq g))) ^ 2
         * 10000) ∧
    0 ≤ (wellScore pixels labMin g labWell).1 ∧
    (wellScore pixels labMin g labWell).1 ≤ 1 ∧
    (wellScore pixels labMin g labWell).2 =
      (wellScore pixels labMin g labWell).1 ^ 2 * 10000 ∧
    ((wellScore pixels labMin g labWell).1 = 1/2 →
      (wellScore pixels labMin g labWell).2 = 2500) := by
  have hs : wellScore pixels labMin g labWell =
      (max 0 (min 1 (dotLab (labSub labWell labMin) g / gradMagSq g)),
       (max 0 (min 1 (dotLab (labSub labWell labMin) g / gradMagSq g))) ^ 2
         * 10000) := by
    rw [wellScore, if_pos ⟨hp, hg⟩]
  refine ⟨hs, ?_, ?_, ?_, ?_⟩
  · rw [hs]; exact le_max_left 0 _
  · rw [hs]; exact max_le (by norm_num) (min_le_left 1 _)
  · rw [hs]
  · intro h12
    rw [hs] at h12 ⊢
    dsimp only at h12 ⊢
    rw [h12]
    norm_num

/-- C1 witness: a concrete scorer call whose intensity is exactly `1/2`
and whose cell count is `2500`. -/
theorem scorer_projection_formula_witness :
    0 < ([(⟨0, 0, 0⟩ : RGB)] : List RGB).length ∧
    (1 : ℚ)/1000000 < gradMagSq ⟨1, 0, 0⟩ ∧
    ((wellScore [⟨0, 0, 0⟩] ⟨0, 0, 0⟩ ⟨1, 0, 0⟩ ⟨1/2, 0, 0⟩).1 = 1/2 →
      (wellScore [⟨0, 0, 0⟩] ⟨0, 0, 0⟩ ⟨1, 0, 0⟩ ⟨1/2, 0, 0⟩).2 = 2500) ∧
    (wellScore [⟨0, 0, 0⟩] ⟨0, 0, 0⟩ ⟨1, 0, 0⟩ ⟨1/2, 0, 0⟩).1 = 1/2 ∧
    (wellScore [⟨0, 0, 0⟩] ⟨0, 0, 0⟩ ⟨1, 0, 0⟩ ⟨1/2, 0, 0⟩).2 = 2500 := by
  have hp : 0 < ([(⟨0, 0, 0⟩ : RGB)] : List RGB).length := by decide
  have hg : (1 : ℚ)/1000000 < gradMagSq ⟨1, 0, 0⟩ := by
    with_unfolding_all decide
  have h1 : (wellScore [⟨0, 0, 0⟩] ⟨0, 0, 0⟩ ⟨1, 0, 0⟩ ⟨1/2, 0, 0⟩).1 = 1/2 := by
    with_unfolding_all rfl
  exact ⟨hp, hg,
    (scorer_projection_formula [⟨0, 0, 0⟩] ⟨0, 0, 0⟩ ⟨1, 0, 0⟩ ⟨1/2, 0, 0⟩
      hp hg).2.2.2.2, h1,
    (scorer_projection_formula [⟨0, 0, 0⟩] ⟨0, 0, 0⟩ ⟨1, 0, 0⟩ ⟨1/2, 0, 0⟩
      hp hg).2.2.2.2 h1⟩

/-- C9: with a fixed non-degenerate axis, the scorer is monotone along
the axis: if both projections `dot(X - origin, vector)` and
`dot(Y - origin, vector)` lie inside `[0, magnitudeSquared]` and the
first is smaller, the intensity of `X` is at most the intensity of `Y`
(for any non-empty samples behind the two wells). -/
theorem scorer_monotone_along_axis (pX pY : List RGB) (o g X Y : Lab)
    (hpx : 0 < pX.length) (hpy : 0 < pY.length)
    (hg : 1/1000000 < gradMagSq g)
    (hXlo : 0 ≤ dotLab (labSub X o) g)
    (hXhi : dotLab (labSub X o) g ≤ gradMagSq g)
    (hYlo : 0 ≤ dotLab (labSub Y o) g)
    (hYhi : dotLab (labSub Y o) g ≤ gradMagSq g)
    (hlt : dotLab (labSub X o) g < dotLab (labSub Y o) g) :
    (wellScore pX o g X).1 ≤ (wellScore pY o g Y).1 := by
  have hm : 0 < gradMagSq g := lt_trans (by norm_num) hg
  rw [wellScore, if_pos ⟨hpx, hg⟩, wellScore, if_pos ⟨hpy, hg⟩]
  dsimp only
  refine max_le_max le_rfl (min_le_min le_rfl ?_)
  exact div_le_div_of_nonneg_right hlt.le hm.le

/-- C9 witness: two concrete well colors at projections `1/4 < 3/4`
inside `[0, 1]` on the unit axis. -/
theorem scorer_monotone_along_axis_witness :
    0 < ([(⟨0, 0, 0⟩ : RGB)] : List RGB).length ∧
    (1 : ℚ)/1000000 < gradMagSq ⟨1, 0, 0⟩ ∧
    dotLab (labSub ⟨1/4, 0, 0⟩ ⟨0, 0, 0⟩) ⟨1, 0, 0⟩ <
      dotLab (labSub ⟨3/4, 0, 0⟩ ⟨0, 0, 0⟩) ⟨1, 0, 0⟩ ∧
    (wellScore [⟨0, 0, 0⟩] ⟨0, 0, 0⟩ ⟨1, 0, 0⟩ ⟨1/4, 0, 0⟩).1 ≤
      (wellScore [⟨0, 0, 0⟩] ⟨0, 0, 0⟩ ⟨1, 0, 0⟩ ⟨3/4, 0, 0⟩).1 := by
  refine ⟨by decide, by with_unfolding_all decide, by with_unfolding_all decide,
    scorer_monotone_along_axis [⟨0, 0, 0⟩] [⟨0, 0, 0⟩]
      ⟨0, 0, 0⟩ ⟨1, 0, 0⟩ ⟨1/4, 0, 0⟩ ⟨3/4, 0, 0⟩
      (by decide) (by decide)
      (by with_unfolding_all decide)
      (by with_unfolding_all decide) (by with_unfolding_all decide)
      (by with_unfolding_all decide) (by with_unfolding_all decide)
      (by with_unfolding_all decide)⟩

end WellPlate

namespace WellPlate

/-- C3: a well whose sample is empty, or whose axis has squared
magnitude at most epsilon, is scored `intensity = 0`, `cellCount = 0`
without failing; identical reference colors give a zero gradient vector
(hence a degenerate axis); and on success the batch still consists of
all 48 independently assembled well records, each built from its own
sample and the shared axis. -/
theorem degenerate_well_scores_zero :
    (∀ (pixels : List RGB) (labMin g labWell : Lab),
      pixels = [] ∨ gradMagSq g ≤ 1/1000000 →
      wellScore pixels labMin g labWell = (0, 0)) ∧
    (∀ c : Lab, gradMagSq (labSub c c) = 0) ∧
    (∀ (toLab : RGB → Lab) (toRgb : Lab → RGB) (ctx : Ctx)
        (a1 h6 mp xp : Point) (rs : List WellResult),
      processWellPlate toLab toRgb ctx a1 h6 mp xp = Except.ok rs →
      rs.length = 48 ∧
      ∀ r ∈ rs, ∃ row, row < 8 ∧ ∃ col, col < 6 ∧
        r = mkWellResult toLab toRgb ctx a1 h6
              (refLab toLab toRgb (refPixels ctx a1 h6 mp))
              (labSub (refLab toLab toRgb (refPixels ctx a1 h6 xp))
                (refLab toLab toRgb (refPixels ctx a1 h6 mp)))
              row col) := by
  refine ⟨?_, ?_, ?_⟩
  · intro pixels labMin g labWell hdeg
    rw [wellScore, if_neg]
    rintro ⟨hlen, hmag⟩
    rcases hdeg with h | h
    · rw [h] at hlen
      exact absurd hlen (by decide)
    · exact absurd hmag (not_lt.mpr h)
  · intro c
    simp [gradMagSq, labSub]
  · intro toLab toRgb ctx a1 h6 mp xp rs h
    have hb : rs = buildResults toLab toRgb ctx a1 h6 mp xp := by
      rw [processWellPlate] at h
      split at h
      · exact Except.noConfusion h
      · exact (Except.ok.inj h).symm
    subst hb
    refine ⟨rfl, ?_⟩
    intro r hr
    simp only [buildResults, List.mem_flatMap, List.mem_map,
      List.mem_range] at hr
    obtain ⟨row, hrow, col, hcol, hre⟩ := hr
    exact ⟨row, by simpa [NUM_ROWS] using hrow,
           col, by simpa [NUM_COLS] using hcol, hre.symm⟩

/-- C3 witness: the scorer at an empty sample returns the zero score. -/
theorem degenerate_well_scores_zero_witness :
    (([] : List RGB) = [] ∨ gradMagSq ⟨1, 0, 0⟩ ≤ 1/1000000) ∧
    wellScore [] ⟨0, 0, 0⟩ ⟨1, 0, 0⟩ ⟨0, 0, 0⟩ = (0, 0) :=
  ⟨Or.inl rfl,
   degenerate_well_scores_zero.1 [] ⟨0, 0, 0⟩ ⟨1, 0, 0⟩ ⟨0, 0, 0⟩ (Or.inl rfl)⟩

/-- C5 counterexample: with identical landmark points (`a1 == h6`, so
the nominal radius is zero) on a concrete untainted image, the
invocation does NOT fail: it succeeds and produces 48 results,
refuting the claim that every reference sample is empty and a
calibration error is raised. -/
theorem equal_landmarks_counterexample :
    (processWellPlate mockToLab mockToRgb ctx0
      ⟨5, 5⟩ ⟨5, 5⟩ ⟨5, 5⟩ ⟨5, 5⟩).isOk = true ∧
    ((processWellPlate mockToLab mockToRgb ctx0
      ⟨5, 5⟩ ⟨5, 5⟩ ⟨5, 5⟩ ⟨5, 5⟩).toOption.getD []).length = 48 := by
  constructor
  · with_unfolding_all rfl
  · with_unfolding_all rfl

/-- C5 amended: if the two landmark points are equal, both grid steps
and the sampling radius are zero; but since the sampler floors the
effective radius at one pixel, both reference samples are non-empty on
an untainted canvas, so the invocation does not fail and produces 48
(degenerate) well results. -/
theorem equal_landmarks_amended (toLab : RGB → Lab) (toRgb : Lab → RGB)
    (ctx : Ctx) (a1 mp xp : Point) (hct : ctx.tainted = false) :
    gridDx a1 a1 = 0 ∧ gridDy a1 a1 = 0 ∧ gridRadius a1 a1 = 0 ∧
    ∃ rs, processWellPlate toLab toRgb ctx a1 a1 mp xp = Except.ok rs ∧
      rs.length = 48 := by
  have hdx : gridDx a1 a1 = 0 := by simp [gridDx]
  have hdy : gridDy a1 a1 = 0 := by simp [gridDy]
  have hrad : gridRadius a1 a1 = 0 := by simp [gridRadius, hdx, hdy]
  have hsample : ∀ p : Point, (refPixels ctx a1 a1 p).length = 3 := by
    intro p
    rw [refPixels, hrad,
      getPixelData_small_radius ctx p.x p.y 0 (by norm_num) hct]
    exact length_samplePixels_one ctx p.x p.y
  refine ⟨hdx, hdy, hrad, buildResults toLab toRgb ctx a1 a1 mp xp, ?_,
    length_buildResults toLab toRgb ctx a1 a1 mp xp⟩
  rw [processWellPlate, if_neg]
  rw [hsample mp, hsample xp]
  decide

/-- C5 amended witness: concrete untainted instantiation of the amended
statement. -/
theorem equal_landmarks_amended_witness :
    ctx0.tainted = false ∧
    (gridDx ⟨5, 5⟩ ⟨5, 5⟩ = 0 ∧ gridDy ⟨5, 5⟩ ⟨5, 5⟩ = 0 ∧
     gridRadius ⟨5, 5⟩ ⟨5, 5⟩ = 0 ∧
     ∃ rs, processWellPlate mockToLab mockToRgb ctx0
        ⟨5, 5⟩ ⟨5, 5⟩ ⟨6, 6⟩ ⟨7, 7⟩ = Except.ok rs ∧ rs.length = 48) :=
  ⟨rfl, equal_landmarks_amended mockToLab mockToRgb ctx0 ⟨5, 5⟩ ⟨6, 6⟩ ⟨7, 7⟩ rfl⟩

end WellPlate

namespace WellPlate

/-- C7: the robust estimator returns black on the empty sequence, the
pixel itself on a singleton, and on two or more pixels it equals the
spec's description: convert to uniform space, sort each channel
independently, take each channel's median (averaging the two middle
values on even counts), recombine, and convert back. -/
theorem robust_estimator_cases (toLab : RGB → Lab) (toRgb : Lab → RGB) :
    getRobustAverageColor toLab toRgb [] = ⟨0, 0, 0⟩ ∧
    (∀ p : RGB, getRobustAverageColor toLab toRgb [p] = p) ∧
    (∀ pixels : List RGB, 2 ≤ pixels.length →
      getRobustAverageColor toLab toRgb pixels =
        specMedianEstimate toLab toRgb pixels) := by
  refine ⟨rfl, fun p => rfl, fun pixels hlen => ?_⟩
  have hLl : (sortAsc ((pixels.map toLab).map (·.l))).length = pixels.length := by
    rw [sortAsc_length, List.length_map, List.length_map]
  have hLa : (sortAsc ((pixels.map toLab).map (·.a))).length = pixels.length := by
    rw [sortAsc_length, List.length_map, List.length_map]
  have hLb : (sortAsc ((pixels.map toLab).map (·.b))).length = pixels.length := by
    rw [sortAsc_length, List.length_map, List.length_map]
  rw [getRobustAverageColor, if_neg (by omega), if_neg (by omega),
    specMedianEstimate]
  dsimp only
  rw [specChannelMedian, specChannelMedian, specChannelMedian]
  rw [hLl, hLa, hLb]

/-- C7 witness: the estimator agrees with the spec's median description
on a concrete two-pixel sample. -/
theorem robust_estimator_cases_witness :
    2 ≤ ([(⟨1, 2, 3⟩ : RGB), ⟨4, 5, 6⟩] : List RGB).length ∧
    getRobustAverageColor mockToLab mockToRgb [⟨1, 2, 3⟩, ⟨4, 5, 6⟩] =
      specMedianEstimate mockToLab mockToRgb [⟨1, 2, 3⟩, ⟨4, 5, 6⟩] :=
  ⟨by decide,
   (robust_estimator_cases mockToLab mockToRgb).2.2
     [⟨1, 2, 3⟩, ⟨4, 5, 6⟩] (by decide)⟩

end WellPlate
